import Mathlib

/-!
Shallow embedding of the breadbot risk-management and signal-evaluation core
(src/util/risk_management.py, src/util/market_analysis.py, src/bot.py).

Conventions: Python floats are modelled as `ℚ`; a raised exception is modelled
as `Option.none` (or `Except.error`); the `NaN` that `np.mean` produces on an
empty slice is also modelled as `Option.none` (it is a value, not an exception,
and every Python comparison against it is falsy).
-/

/-- `StopLoss.check_stop_loss` (risk_management.py lines 33-47).  The `none`
result models the `ValueError` raised on a negative price; the constructor
additionally validates `0 < threshold < 1`. -/
def check_stop_loss (threshold current_price entry_price : ℚ) : Option Bool :=
  if current_price < 0 ∨ entry_price < 0 then none
  else some (decide (current_price ≤ entry_price * (1 - threshold)))

/-- `PositionSizing.calculate_trade_size` (risk_management.py lines 104-117).
The `none` result models the `ZeroDivisionError` that Python raises when
`account_balance == stop_loss_price`; the function body has no guard. -/
def calculate_trade_size (risk_per_trade max_drawdown account_balance stop_loss_price : ℚ) :
    Option ℚ :=
  if account_balance - stop_loss_price = 0 then none
  else
    let risk_amount := account_balance * risk_per_trade
    let trade_size := risk_amount / (account_balance - stop_loss_price)
    some (min trade_size (account_balance * max_drawdown))

/-- `EnhancedRiskManagement` (risk_management.py lines 691-725): fields set
by `__init__`, with `initial_balance` and `high_water_mark` starting at the
initial `account_balance`. -/
structure EnhancedRiskManagement where
  max_drawdown : ℚ
  max_position_size : ℚ
  account_balance : ℚ
  initial_balance : ℚ
  high_water_mark : ℚ

/-- `EnhancedRiskManagement.__init__` (risk_management.py lines 692-705). -/
def EnhancedRiskManagement.init (max_drawdown max_position_size account_balance : ℚ) :
    EnhancedRiskManagement :=
  ⟨max_drawdown, max_position_size, account_balance, account_balance, account_balance⟩

/-- `EnhancedRiskManagement.update_balance` (risk_management.py lines 707-715). -/
def update_balance (s : EnhancedRiskManagement) (new_balance : ℚ) : EnhancedRiskManagement :=
  { s with
      account_balance := new_balance
      high_water_mark := max s.high_water_mark new_balance }

/-- The drawdown expression of `EnhancedRiskManagement.check_drawdown`
(risk_management.py line 724), recomputed from the current fields. -/
def drawdown (s : EnhancedRiskManagement) : ℚ :=
  (s.high_water_mark - s.account_balance) / s.high_water_mark

/-- `EnhancedRiskManagement.check_drawdown` (risk_management.py lines 717-725):
`true` iff the freshly recomputed drawdown is within `max_drawdown`. -/
def check_drawdown (s : EnhancedRiskManagement) : Bool :=
  decide (drawdown s ≤ s.max_drawdown)

/-- The drawdown-gate control flow of `BreadBot.start_trading` (bot.py lines
233-237): after each trade the balance is refreshed via `update_balance`, and
if `check_drawdown` reports `False` the loop returns immediately (no further
balances are processed).  The returned flag records whether the loop halted. -/
def start_trading_steps (s : EnhancedRiskManagement) :
    List ℚ → EnhancedRiskManagement × Bool
  | [] => (s, false)
  | b :: bs =>
    let s1 := update_balance s b
    if check_drawdown s1 then start_trading_steps s1 bs else (s1, true)

/-- Claim C1: after each `update_balance` the high-water mark equals the max of
its previous value and the new balance; `check_drawdown` recomputes drawdown
from the current fields and returns `false` exactly when it exceeds
`max_drawdown`; on the balance sequence [100000, 90000, 95000] from an initial
balance of 100000 the high-water mark stays 100000 and the drawdowns are
0, 1/10, 1/20; and the trading loop stops as soon as `check_drawdown` is
`false`. -/
theorem c1_drawdown_gate :
    (∀ (s : EnhancedRiskManagement) (nb : ℚ),
      (update_balance s nb).high_water_mark = max s.high_water_mark nb ∧
      (update_balance s nb).account_balance = nb)
    ∧ (∀ s : EnhancedRiskManagement,
        check_drawdown s = false ↔ s.max_drawdown < drawdown s)
    ∧ (let s1 := update_balance (EnhancedRiskManagement.init (1/5) (1/10) 100000) 100000
       let s2 := update_balance s1 90000
       let s3 := update_balance s2 95000
       s1.high_water_mark = 100000 ∧ drawdown s1 = 0 ∧
       s2.high_water_mark = 100000 ∧ drawdown s2 = 1/10 ∧
       s3.high_water_mark = 100000 ∧ drawdown s3 = 1/20)
    ∧ (∀ (s : EnhancedRiskManagement) (b : ℚ) (bs : List ℚ),
        check_drawdown (update_balance s b) = false →
        start_trading_steps s (b :: bs) = (update_balance s b, true)) := by
  refine ⟨fun s nb => ⟨rfl, rfl⟩, fun s => ?_,
    by norm_num [update_balance, drawdown, EnhancedRiskManagement.init, max_def],
    fun s b bs h => ?_⟩
  · simp [check_drawdown, not_le]
  · simp [start_trading_steps, h]

/-- Closed instance of the halting clause of `c1_drawdown_gate`: from the
bot's initial state (max_drawdown 1/5, balance 100000), a balance update to
50000 makes `check_drawdown` false and the loop halts at once. -/
theorem c1_drawdown_gate_witness :
    start_trading_steps (EnhancedRiskManagement.init (1/5) (1/10) 100000) [50000, 1, 2]
      = (update_balance (EnhancedRiskManagement.init (1/5) (1/10) 100000) 50000, true) :=
  c1_drawdown_gate.2.2.2 (EnhancedRiskManagement.init (1/5) (1/10) 100000) 50000 [1, 2]
    (by norm_num [check_drawdown, drawdown, update_balance, EnhancedRiskManagement.init, max_def])

/-- Claim C2: for `account_balance ≠ stop_loss_price` the trade size is
`min(risk_per_trade * balance / (balance - stop_loss_price), max_drawdown * balance)`,
and any returned value is at most `account_balance * max_drawdown`. -/
theorem c2_trade_size_formula :
    ∀ risk_per_trade max_drawdown account_balance stop_loss_price : ℚ,
      (account_balance ≠ stop_loss_price →
        calculate_trade_size risk_per_trade max_drawdown account_balance stop_loss_price
          = some (min (risk_per_trade * account_balance / (account_balance - stop_loss_price))
                      (max_drawdown * account_balance)))
      ∧ (∀ v,
          calculate_trade_size risk_per_trade max_drawdown account_balance stop_loss_price
            = some v →
          v ≤ account_balance * max_drawdown) := by
  intro r md bal sl
  constructor
  · intro h
    have hne : bal - sl ≠ 0 := sub_ne_zero.mpr h
    simp only [calculate_trade_size, if_neg hne]
    rw [mul_comm bal r, mul_comm bal md]
  · intro v hv
    simp only [calculate_trade_size] at hv
    split at hv
    · exact (Option.noConfusion hv)
    · simp only [Option.some.injEq] at hv
      subst hv
      exact min_le_right _ _

/-- Closed instance of `c2_trade_size_formula` at balance 1000, stop 900,
risk 1/100, max drawdown 1/10: the returned size is 1/10 ≤ 1000 * (1/10). -/
theorem c2_trade_size_formula_witness :
    calculate_trade_size (1/100) (1/10) 1000 900
      = some (min ((1/100) * 1000 / (1000 - 900)) ((1/10) * 1000))
    ∧ (1/10 : ℚ) ≤ 1000 * (1/10) :=
  ⟨(c2_trade_size_formula (1/100) (1/10) 1000 900).1 (by norm_num),
   (c2_trade_size_formula (1/100) (1/10) 1000 900).2 (1/10)
     (by norm_num [calculate_trade_size, min_def])⟩

/-- Claim C4 (code bug): with `stop_loss_price = account_balance` the division
in `calculate_trade_size` raises an uncaught `ZeroDivisionError` (modelled
`none`); neither `execute_order` nor `execute_trade` in bot.py catches it, so
the call crashes instead of skipping the trade. -/
theorem c4_division_by_zero_crash :
    ∀ risk_per_trade max_drawdown account_balance : ℚ,
      calculate_trade_size risk_per_trade max_drawdown account_balance account_balance
        = none := by
  intro r md bal
  simp [calculate_trade_size]

/-- Claim C5: for non-negative prices and threshold in (0,1), the stop-loss
fires exactly when `current_price ≤ entry_price * (1 - threshold)`; with entry
100 and threshold 1/20 it fires at 95 and not at 9501/100. -/
theorem c5_stop_loss_trigger :
    (∀ threshold current_price entry_price : ℚ,
      0 < threshold → threshold < 1 → 0 ≤ current_price → 0 ≤ entry_price →
      (check_stop_loss threshold current_price entry_price = some true ↔
        current_price ≤ entry_price * (1 - threshold)))
    ∧ check_stop_loss (1/20) 95 100 = some true
    ∧ check_stop_loss (1/20) (9501/100) 100 = some false := by
  refine ⟨?_, by norm_num [check_stop_loss], by norm_num [check_stop_loss]⟩
  intro t c e _ _ hc he
  rw [check_stop_loss, if_neg (not_or.mpr ⟨not_lt.mpr hc, not_lt.mpr he⟩)]
  simp

/-- Closed instance of `c5_stop_loss_trigger`: with threshold 1/10, price 90
and entry 100 the stop-loss condition is an equivalence at concrete values. -/
theorem c5_stop_loss_trigger_witness :
    check_stop_loss (1/10) 90 100 = some true ↔ (90 : ℚ) ≤ 100 * (1 - 1/10) :=
  c5_stop_loss_trigger.1 (1/10) 90 100 (by norm_num) (by norm_num) (by norm_num) (by norm_num)

/-- `np.diff(prices)` (risk_management.py line 197): consecutive differences. -/
def deltas (prices : List ℚ) : List ℚ :=
  List.zipWith (fun a b => b - a) prices prices.tail

/-- `avg_gain` of `RSIAnalysis.calculate_rsi` (risk_management.py line 200):
mean of the strictly positive deltas, 0 when there are none. -/
def avg_gain (prices : List ℚ) : ℚ :=
  let pos := (deltas prices).filter (fun d => 0 < d)
  if pos = [] then 0 else pos.sum / pos.length

/-- `avg_loss` of `RSIAnalysis.calculate_rsi` (risk_management.py line 201):
absolute value of the mean of the strictly negative deltas, 0 when there are
none. -/
def avg_loss (prices : List ℚ) : ℚ :=
  let neg := (deltas prices).filter (fun d => d < 0)
  if neg = [] then 0 else |neg.sum / neg.length|

/-- `RSIAnalysis.calculate_rsi` (risk_management.py lines 186-204).  When
`avg_loss = 0` the source sets `rs = float('inf')`, and
`100 - 100 / (1 + inf) = 100 - 0 = 100`, so that branch is written as the
constant 100 here. -/
def calculate_rsi (prices : List ℚ) : ℚ :=
  let ag := avg_gain prices
  let al := avg_loss prices
  if al = 0 then 100 else 100 - 100 / (1 + ag / al)

/-- `RSIAnalysis.is_oversold` (risk_management.py lines 171-184); the default
threshold is 30. -/
def is_oversold (prices : List ℚ) (threshold : ℚ) : Bool :=
  decide (calculate_rsi prices ≤ threshold)

/-- Claim C7: RSI is always in [0, 100], and `avg_loss = 0` (no downward
moves) yields exactly 100 instead of a division by zero. -/
theorem c7_rsi_bounds :
    ∀ prices : List ℚ,
      0 ≤ calculate_rsi prices ∧ calculate_rsi prices ≤ 100
      ∧ (avg_loss prices = 0 → calculate_rsi prices = 100) := by
  intro prices
  have hg : 0 ≤ avg_gain prices := by
    rw [avg_gain]
    split
    · exact le_refl 0
    · apply div_nonneg
      · apply List.sum_nonneg
        intro x hx
        have hx' := (List.mem_filter.mp hx).2
        exact le_of_lt (of_decide_eq_true hx')
      · exact Nat.cast_nonneg _
  have hl : 0 ≤ avg_loss prices := by
    rw [avg_loss]
    split
    · exact le_refl 0
    · exact abs_nonneg _
  by_cases h0 : avg_loss prices = 0
  · rw [calculate_rsi]
    simp only [h0, if_pos rfl]
    exact ⟨by norm_num, le_refl _, fun _ => rfl⟩
  · have hlpos : 0 < avg_loss prices := lt_of_le_of_ne hl (Ne.symm h0)
    have hrs : 0 ≤ avg_gain prices / avg_loss prices := div_nonneg hg hl
    have h1 : (0 : ℚ) < 1 + avg_gain prices / avg_loss prices := by linarith
    have hfrac_pos : 0 < 100 / (1 + avg_gain prices / avg_loss prices) :=
      div_pos (by norm_num) h1
    have hfrac_le : 100 / (1 + avg_gain prices / avg_loss prices) ≤ 100 := by
      rw [div_le_iff₀ h1]
      nlinarith
    rw [calculate_rsi]
    simp only [if_neg h0]
    exact ⟨by linarith, by linarith, fun h => absurd h h0⟩

/-- Closed instance of `c7_rsi_bounds`: the strictly rising series [1, 2] has
no losses, so its RSI is exactly 100 (and in particular within bounds). -/
theorem c7_rsi_bounds_witness : calculate_rsi [1, 2] = 100 :=
  (c7_rsi_bounds [1, 2]).2.2 (by norm_num [avg_loss, deltas])

/-- Claim C8 counterexample: on the empty price list (fewer than 2 prices) the
code returns 100 — the `avg_loss = 0` branch — not the claimed sentinel 0. -/
theorem c8_counterexample :
    calculate_rsi ([] : List ℚ) = 100 ∧ calculate_rsi ([] : List ℚ) ≠ 0 := by
  constructor
  · rfl
  · intro h
    rw [show calculate_rsi ([] : List ℚ) = 100 from rfl] at h
    norm_num at h

/-- Claim C8 as amended: with fewer than 2 prices there are no deltas, hence
`avg_loss = 0`, and `calculate_rsi` returns 100 (not 0). -/
theorem c8_amended_short_rsi :
    ∀ prices : List ℚ, prices.length < 2 → calculate_rsi prices = 100 := by
  intro prices h
  rcases prices with _ | ⟨a, _ | ⟨b, t⟩⟩
  · rfl
  · rfl
  · simp only [List.length_cons] at h
    omega

/-- Closed instance of `c8_amended_short_rsi` at the one-element list [5]. -/
theorem c8_amended_short_rsi_witness : calculate_rsi [5] = 100 :=
  c8_amended_short_rsi [5] (by simp)

/-- The Python slice `prices[-window:]`: the whole list when `window = 0`
(since `-0 == 0`) or when `window ≥ len(prices)`, otherwise the last `window`
elements. -/
def lastN {α : Type} (window : ℕ) (xs : List α) : List α :=
  if window = 0 then xs else xs.drop (xs.length - window)

/-- `MovingAverage.calculate_moving_average` (risk_management.py lines
276-288): `np.mean(prices[-window:])`.  `none` models the NaN produced on an
empty slice; there is no short-input sentinel branch. -/
def calculate_moving_average (prices : List ℚ) (window : ℕ) : Option ℚ :=
  let t := lastN window prices
  if t = [] then none else some (t.sum / t.length)

/-- `MarketAnalysisTools.calculate_bollinger_bands` (market_analysis.py lines
165-188).  `std` abstracts `np.std` of the trailing window (a square root is
not expressible over ℚ); the short-input branch, which the claims are about,
does not consult it.  The `getD 0` is unreachable in the `else` branch for a
positive window. -/
def calculate_bollinger_bands (std : List ℚ → ℚ) (prices : List ℚ)
    (window : ℕ) (num_std_dev : ℚ) : ℚ × ℚ :=
  if prices.length < window then (0, 0)
  else
    let sma := (calculate_moving_average prices window).getD 0
    let std_dev := std (lastN window prices)
    (sma + num_std_dev * std_dev, sma - num_std_dev * std_dev)

/-- Claim C9 counterexample: a one-element history with the default window of
10 yields the mean of the available prices (5), not the claimed sentinel 0. -/
theorem c9_counterexample :
    calculate_moving_average [5] 10 = some 5
    ∧ calculate_moving_average [5] 10 ≠ some 0 := by
  have h : calculate_moving_average [5] 10 = some 5 := by
    norm_num [calculate_moving_average, lastN]
  refine ⟨h, ?_⟩
  rw [h]
  intro hc
  rw [Option.some.injEq] at hc
  norm_num at hc

/-- Claim C9 as amended: Bollinger bands do return the (0, 0) sentinel for a
short history, but the moving average returns the mean of the whole (shorter)
history — with no exception; the empty history yields NaN (`none`), not 0. -/
theorem c9_amended_short_inputs :
    (∀ (std : List ℚ → ℚ) (prices : List ℚ) (window : ℕ) (num_std_dev : ℚ),
      prices.length < window →
      calculate_bollinger_bands std prices window num_std_dev = (0, 0))
    ∧ (∀ (prices : List ℚ) (window : ℕ), prices ≠ [] → prices.length < window →
      calculate_moving_average prices window = some (prices.sum / prices.length)) := by
  constructor
  · intro std prices window k h
    simp [calculate_bollinger_bands, h]
  · intro prices window hne h
    have hw : window ≠ 0 := by omega
    have hdrop : prices.length - window = 0 := by omega
    simp [calculate_moving_average, lastN, hw, hdrop, hne]

/-- Closed instance of `c9_amended_short_inputs`: with the one-element history
[1] and window 2, the bands are (0, 0) and the moving average is 1/1. -/
theorem c9_amended_short_inputs_witness :
    calculate_bollinger_bands (fun _ => 0) [1] 2 2 = (0, 0)
    ∧ calculate_moving_average [1] 2 = some (List.sum [1] / (List.length [1] : ℚ)) :=
  ⟨c9_amended_short_inputs.1 (fun _ => 0) [1] 2 2 (by simp),
   c9_amended_short_inputs.2 [1] 2 (by simp) (by simp)⟩

/-- `TrailingStop.update_trailing_stop` (risk_management.py lines 63-83).
`highest_price` starts as `float('-inf')`, modelled as `none` (so that
`max(-inf, p) = p` on the first update).  The outer `none` models the
`ValueError` raised on a negative price; otherwise the new highest price and
the returned stop `highest * (1 - trail_percent)` are produced. -/
def update_trailing_stop (trail_percent : ℚ) (highest_price : Option ℚ)
    (current_price : ℚ) : Option (Option ℚ × ℚ) :=
  if current_price < 0 then none
  else
    let h1 := match highest_price with
      | none => current_price
      | some h0 => max h0 current_price
    some (some h1, h1 * (1 - trail_percent))

/-- Feeding a price sequence through `update_trailing_stop`, collecting the
returned stop prices; `none` if any observation raises. -/
def run_trailing_stop (trail_percent : ℚ) (highest_price : Option ℚ) :
    List ℚ → Option (Option ℚ × List ℚ)
  | [] => some (highest_price, [])
  | p :: ps =>
    match update_trailing_stop trail_percent highest_price p with
    | none => none
    | some (h1, stop) =>
      match run_trailing_stop trail_percent h1 ps with
      | none => none
      | some (hf, stops) => some (hf, stop :: stops)

/-- Helper for the trailing-stop monotonicity: from a non-negative recorded
high, a non-negative price sequence runs without error, the high never
decreases, and the emitted stops extend a non-decreasing chain seeded by the
current stop value. -/
theorem run_trailing_stop_chain (t : ℚ) (ht : 0 ≤ 1 - t) :
    ∀ (ps : List ℚ) (h0 : ℚ), (∀ p ∈ ps, 0 ≤ p) →
      ∃ hf stops, run_trailing_stop t (some h0) ps = some (some hf, stops)
        ∧ h0 ≤ hf ∧ List.Chain' (· ≤ ·) (h0 * (1 - t) :: stops) := by
  intro ps
  induction ps with
  | nil =>
    intro h0 _
    exact ⟨h0, [], rfl, le_refl _, List.chain'_singleton _⟩
  | cons p ps ih =>
    intro h0 hps
    have hp : 0 ≤ p := hps p (List.mem_cons_self _ _)
    have h1def : update_trailing_stop t (some h0) p
        = some (some (max h0 p), max h0 p * (1 - t)) := by
      rw [update_trailing_stop, if_neg (not_lt.mpr hp)]
    obtain ⟨hf, stops, hrun, hle, hchain⟩ :=
      ih (max h0 p) (fun q hq => hps q (List.mem_cons_of_mem _ hq))
    refine ⟨hf, max h0 p * (1 - t) :: stops, ?_,
      le_trans (le_max_left _ _) hle, ?_⟩
    · simp only [run_trailing_stop, h1def, hrun]
    · exact List.chain'_cons.mpr
        ⟨mul_le_mul_of_nonneg_right (le_max_left h0 p) ht, hchain⟩

/-- Claim C6: each update first raises the recorded high to
`max(highest, current)` and returns the stop `high * (1 - trail_percent)`,
which never exceeds the high; over any non-negative price sequence the emitted
stops are monotonically non-decreasing; and on trail 1/10 with path
[100, 110, 90] the stops are 90, 99, 99, the high ends at 110, and the final
price 90 is at or below the stop 99 (closing the position). -/
theorem c6_trailing_stop :
    (∀ (t : ℚ) (h : Option ℚ) (p : ℚ), 0 < t → t < 1 → 0 ≤ p →
      (∀ x ∈ h, 0 ≤ x) →
      update_trailing_stop t h p
        = some (some ((h.map (fun h0 => max h0 p)).getD p),
                ((h.map (fun h0 => max h0 p)).getD p) * (1 - t))
      ∧ ((h.map (fun h0 => max h0 p)).getD p) * (1 - t)
          ≤ (h.map (fun h0 => max h0 p)).getD p)
    ∧ (∀ (t : ℚ) (ps : List ℚ), 0 < t → t < 1 → (∀ p ∈ ps, 0 ≤ p) →
        ∃ hf stops, run_trailing_stop t none ps = some (hf, stops)
          ∧ List.Chain' (· ≤ ·) stops)
    ∧ run_trailing_stop (1/10) none [100, 110, 90] = some (some 110, [90, 99, 99])
    ∧ (90 : ℚ) ≤ 99 := by
  refine ⟨?_, ?_, ?_, by norm_num⟩
  · intro t h p ht0 ht1 hp hh
    have hne : ¬ p < 0 := not_lt.mpr hp
    cases h with
    | none =>
      constructor
      · simp [update_trailing_stop, hne]
      · simp only [Option.map_none', Option.getD_none]
        nlinarith
    | some h0 =>
      have h0n : 0 ≤ h0 := hh h0 rfl
      have hmax : 0 ≤ max h0 p := le_trans h0n (le_max_left _ _)
      constructor
      · simp [update_trailing_stop, hne]
      · simp only [Option.map_some', Option.getD_some]
        nlinarith
  · intro t ps ht0 ht1 hps
    cases ps with
    | nil => exact ⟨none, [], rfl, List.chain'_nil⟩
    | cons p ps =>
      have hp : 0 ≤ p := hps p (List.mem_cons_self _ _)
      have hstep : update_trailing_stop t none p = some (some p, p * (1 - t)) := by
        rw [update_trailing_stop, if_neg (not_lt.mpr hp)]
      obtain ⟨hf, stops, hrun, _, hchain⟩ :=
        run_trailing_stop_chain t (by linarith) ps p
          (fun q hq => hps q (List.mem_cons_of_mem _ hq))
      refine ⟨some hf, p * (1 - t) :: stops, ?_, hchain⟩
      simp only [run_trailing_stop, hstep, hrun]
  · norm_num [run_trailing_stop, update_trailing_stop, max_def]

/-- Closed instance of `c6_trailing_stop`: the very first observation at price
4 with trail 1/2 records high 4 and returns stop 2 ≤ 4. -/
theorem c6_trailing_stop_witness :
    update_trailing_stop (1/2) none 4 = some (some 4, 4 * (1 - 1/2))
    ∧ (4 : ℚ) * (1 - 1/2) ≤ 4 :=
  c6_trailing_stop.1 (1/2) none 4 (by norm_num) (by norm_num) (by norm_num) (by simp)

/-- `ResistanceAnalysis.calculate_resistance_level` (risk_management.py lines
213-224): Python's `max(prices)`; `none` models the `ValueError` raised on an
empty list. -/
def calculate_resistance_level (prices : List ℚ) : Option ℚ :=
  prices.max?

/-- `TrendAnalysis.is_above_moving_average` (risk_management.py lines 126-138). -/
def is_above_moving_average (current_price avg_price : ℚ) : Bool :=
  decide (current_price > avg_price)

/-- `VolatilityAnalysis.is_above_standard_deviation` (risk_management.py lines
147-161); the default `deviation_factor` is 1.5 = 3/2. -/
def is_above_standard_deviation (current_price avg_price price_std_dev
    deviation_factor : ℚ) : Bool :=
  decide (current_price > avg_price + deviation_factor * price_std_dev)

/-- `MarketAnalysisTools.calculate_ema` (market_analysis.py lines 126-141):
despite its name it is the same rolling mean as
`MovingAverage.calculate_moving_average`, whose internal exceptions cannot
fire on a well-formed numeric price list (the `except` branch is modelled
separately for malformed input below). -/
def calculate_ema (prices : List ℚ) (window : ℕ) : Option ℚ :=
  calculate_moving_average prices window

/-- The constant resistance condition of `BreadBot.should_buy` /
`should_sell` (bot.py lines 300 and 324):
`calculate_resistance_level([100, 200, 150]) > 200`. -/
def resistance_check : Bool :=
  match calculate_resistance_level [100, 200, 150] with
  | some r => decide (r > 200)
  | none => false

/-- `BreadBot.should_buy` (bot.py lines 283-305) on a well-formed numeric
price history (the fetched history is the `prices` argument).  The outer
`current_price > moving_average` guard and the four ANDed sub-conditions are
translated in source order; a NaN moving average (`none`) makes the guard
falsy. -/
def should_buy (prices : List ℚ) (current_price : ℚ) : Bool :=
  match calculate_ema prices 50 with
  | none => false
  | some moving_average =>
    decide (current_price > moving_average)
    && (is_above_moving_average current_price 100
        && is_above_standard_deviation current_price moving_average 10 (3/2)
        && is_oversold prices 30
        && resistance_check)

/-- `BreadBot.should_sell` (bot.py lines 307-329), translated like
`should_buy`: guard `current_price < moving_average` (30-window mean), then
`is_above_moving_average(current_price, moving_average)`, the volatility
filter, NOT oversold, and the constant resistance condition. -/
def should_sell (prices : List ℚ) (current_price : ℚ) : Bool :=
  match calculate_ema prices 30 with
  | none => false
  | some moving_average =>
    decide (current_price < moving_average)
    && (is_above_moving_average current_price moving_average
        && is_above_standard_deviation current_price moving_average 10 (3/2)
        && !is_oversold prices 30
        && resistance_check)

/-- Claim C3: for every price history and current price, `should_buy` and
`should_sell` are both `false`: the resistance sub-condition compares
`max([100, 200, 150]) = 200` strictly against 200 and always fails (and the
sell branch additionally requires `current_price` both below and above the
moving average). -/
theorem c3_no_signals :
    ∀ (prices : List ℚ) (current_price : ℚ),
      should_buy prices current_price = false
      ∧ should_sell prices current_price = false := by
  intro prices p
  have hres : resistance_check = false := by
    norm_num [resistance_check, calculate_resistance_level, List.max?, max_def]
  constructor
  · unfold should_buy
    cases calculate_ema prices 50 with
    | none => rfl
    | some ma => simp [hres]
  · unfold should_sell
    cases calculate_ema prices 30 with
    | none => rfl
    | some ma => simp [hres]

/-- The Python exception classes relevant to the signal evaluator:
`should_buy`/`should_sell` catch exactly `(ValueError, KeyError)`
(bot.py lines 303 and 327); a `TypeError` is not in that tuple. -/
inductive ExcKind : Type
  | valueError
  | keyError
  | typeError
  deriving DecidableEq

/-- A Python value in a fetched price history: a number or a non-numeric
object (e.g. a string), for modelling malformed input. -/
inductive PyObj : Type
  | num (q : ℚ)
  | nonNum
  deriving DecidableEq

/-- Numeric coercion of a fetched history: `some` list of numbers when every
entry is numeric, `none` otherwise. -/
def asNums : List PyObj → Option (List ℚ)
  | [] => some []
  | PyObj.num q :: xs => (asNums xs).map (fun qs => q :: qs)
  | PyObj.nonNum :: _ => none

/-- `np.mean` over a possibly malformed list: raises `TypeError` when an entry
is non-numeric, yields NaN (modelled `none`) on an empty list, otherwise the
arithmetic mean. -/
def np_mean_exc (xs : List PyObj) : Except ExcKind (Option ℚ) :=
  match asNums xs with
  | none => Except.error ExcKind.typeError
  | some qs => if qs = [] then Except.ok none else Except.ok (some (qs.sum / qs.length))

/-- The possible results of `MarketAnalysisTools.calculate_ema`
(market_analysis.py lines 126-141): a numeric mean (possibly NaN), or the
empty-list sentinel `[]` returned by its `except Exception` handler. -/
inductive EmaOut : Type
  | val (q : Option ℚ)
  | emptyList
  deriving DecidableEq

/-- `MarketAnalysisTools.calculate_ema` on possibly malformed input: the
`try` returns the rolling mean; any internal exception (e.g. the `TypeError`
from `np.mean` on non-numeric data) is swallowed and the empty list `[]` is
returned instead. -/
def calculate_ema_exc (prices : List PyObj) (window : ℕ) : EmaOut :=
  match np_mean_exc (lastN window prices) with
  | Except.ok v => EmaOut.val v
  | Except.error _ => EmaOut.emptyList

/-- The Python comparison `current_price > moving_average` against an EMA
result: `TypeError` when the EMA degraded to the `[]` sentinel (`float > list`
is unsupported), `False` against NaN. -/
def gt_ema (p : ℚ) (ma : EmaOut) : Except ExcKind Bool :=
  match ma with
  | EmaOut.val (some q) => Except.ok (decide (p > q))
  | EmaOut.val none => Except.ok false
  | EmaOut.emptyList => Except.error ExcKind.typeError

/-- The Python comparison `current_price < moving_average`, as `gt_ema`. -/
def lt_ema (p : ℚ) (ma : EmaOut) : Except ExcKind Bool :=
  match ma with
  | EmaOut.val (some q) => Except.ok (decide (p < q))
  | EmaOut.val none => Except.ok false
  | EmaOut.emptyList => Except.error ExcKind.typeError

/-- `is_above_standard_deviation(current_price, moving_average, 10)` against
an EMA result: `[] + 1.5 * 10` raises `TypeError`; a NaN bound compares
falsy. -/
def vol_exc (p : ℚ) (ma : EmaOut) : Except ExcKind Bool :=
  match ma with
  | EmaOut.val (some q) => Except.ok (is_above_standard_deviation p q 10 (3/2))
  | EmaOut.val none => Except.ok false
  | EmaOut.emptyList => Except.error ExcKind.typeError

/-- `RSIAnalysis.calculate_rsi` on possibly malformed input: `np.diff` raises
`TypeError` on non-numeric entries; on numeric input it is the pure
`calculate_rsi`. -/
def calculate_rsi_exc (prices : List PyObj) : Except ExcKind ℚ :=
  match asNums prices with
  | none => Except.error ExcKind.typeError
  | some qs => Except.ok (calculate_rsi qs)

/-- The `try` body of `BreadBot.should_buy` (bot.py lines 294-302) over a
possibly malformed fetched history, with Python's left-to-right short-circuit
evaluation. -/
def should_buy_body (prices : List PyObj) (current_price : ℚ) :
    Except ExcKind Bool := do
  let moving_average := calculate_ema_exc prices 50
  let c0 ← gt_ema current_price moving_average
  if c0 then
    if is_above_moving_average current_price 100 then
      let c2 ← vol_exc current_price moving_average
      if c2 then
        let rsi ← calculate_rsi_exc prices
        if decide (rsi ≤ 30) then
          return resistance_check
        else
          return false
      else
        return false
    else
      return false
  else
    return false

/-- `BreadBot.should_buy` (bot.py lines 283-305) with its
`except (ValueError, KeyError): return False` handler: those two exception
kinds become the no-signal `False`; every other outcome passes through. -/
def should_buy_exc (prices : List PyObj) (current_price : ℚ) :
    Except ExcKind Bool :=
  match should_buy_body prices current_price with
  | Except.error ExcKind.valueError => Except.ok false
  | Except.error ExcKind.keyError => Except.ok false
  | r => r

/-- The `try` body of `BreadBot.should_sell` (bot.py lines 318-326), like
`should_buy_body` with the 30-window mean, the
`is_above_moving_average(current_price, moving_average)` condition and the
negated oversold test. -/
def should_sell_body (prices : List PyObj) (current_price : ℚ) :
    Except ExcKind Bool := do
  let moving_average := calculate_ema_exc prices 30
  let c0 ← lt_ema current_price moving_average
  if c0 then
    let c1 ← gt_ema current_price moving_average
    if c1 then
      let c2 ← vol_exc current_price moving_average
      if c2 then
        let rsi ← calculate_rsi_exc prices
        if !decide (rsi ≤ 30) then
          return resistance_check
        else
          return false
      else
        return false
    else
      return false
  else
    return false

/-- `BreadBot.should_sell` (bot.py lines 307-329) with its
`except (ValueError, KeyError): return False` handler. -/
def should_sell_exc (prices : List PyObj) (current_price : ℚ) :
    Except ExcKind Bool :=
  match should_sell_body prices current_price with
  | Except.error ExcKind.valueError => Except.ok false
  | Except.error ExcKind.keyError => Except.ok false
  | r => r

/-- Claim C10 counterexample: on the malformed one-element history containing
a non-numeric object, `calculate_ema` degrades to its `[]` sentinel, the
comparison sub-condition `current_price > moving_average` raises `TypeError`,
and `should_buy` propagates it to the caller instead of returning `False`. -/
theorem c10_counterexample :
    should_buy_exc [PyObj.nonNum] 5 = Except.error ExcKind.typeError
    ∧ should_buy_exc [PyObj.nonNum] 5 ≠ Except.ok false := by
  constructor
  · rfl
  · intro h
    have h2 : (Except.error ExcKind.typeError : Except ExcKind Bool)
        = Except.ok false := h
    exact Except.noConfusion h2

/-- Claim C10 as amended: the evaluators convert exactly `ValueError` and
`KeyError` into the no-signal `False`; successful evaluations pass through,
and any other exception kind (such as the `TypeError` above) propagates to
the caller. -/
theorem c10_amended_catch :
    ∀ (prices : List PyObj) (current_price : ℚ),
      (∀ b, should_buy_body prices current_price = Except.ok b →
        should_buy_exc prices current_price = Except.ok b)
      ∧ (∀ e, should_buy_body prices current_price = Except.error e →
          e ≠ ExcKind.valueError → e ≠ ExcKind.keyError →
          should_buy_exc prices current_price = Except.error e)
      ∧ (should_buy_body prices current_price = Except.error ExcKind.valueError
          ∨ should_buy_body prices current_price = Except.error ExcKind.keyError →
          should_buy_exc prices current_price = Except.ok false)
      ∧ (∀ b, should_sell_body prices current_price = Except.ok b →
        should_sell_exc prices current_price = Except.ok b)
      ∧ (∀ e, should_sell_body prices current_price = Except.error e →
          e ≠ ExcKind.valueError → e ≠ ExcKind.keyError →
          should_sell_exc prices current_price = Except.error e)
      ∧ (should_sell_body prices current_price = Except.error ExcKind.valueError
          ∨ should_sell_body prices current_price = Except.error ExcKind.keyError →
          should_sell_exc prices current_price = Except.ok false) := by
  intro prices p
  refine ⟨?_, ?_, ?_, ?_, ?_, ?_⟩
  · intro b hb
    unfold should_buy_exc
    rw [hb]
  · intro e hb h1 h2
    unfold should_buy_exc
    rw [hb]
    cases e with
    | valueError => exact absurd rfl h1
    | keyError => exact absurd rfl h2
    | typeError => rfl
  · intro hb
    rcases hb with hb | hb <;> (unfold should_buy_exc; rw [hb])
  · intro b hb
    unfold should_sell_exc
    rw [hb]
  · intro e hb h1 h2
    unfold should_sell_exc
    rw [hb]
    cases e with
    | valueError => exact absurd rfl h1
    | keyError => exact absurd rfl h2
    | typeError => rfl
  · intro hb
    rcases hb with hb | hb <;> (unfold should_sell_exc; rw [hb])

/-- Closed instance of `c10_amended_catch`: on the malformed history the buy
evaluator's body fails with `TypeError`, which is not converted to `False`
but propagated unchanged. -/
theorem c10_amended_catch_witness :
    should_buy_exc [PyObj.nonNum] 5 = Except.error ExcKind.typeError :=
  (c10_amended_catch [PyObj.nonNum] 5).2.1 ExcKind.typeError rfl
    (by intro h; exact ExcKind.noConfusion h)
    (by intro h; exact ExcKind.noConfusion h)
